import Mathlib

/-!
Shallow embedding of the `langchain-web-search` orchestration engine.

The embedding follows the JavaScript source:
- `src/agents/searchAgent.js` (`PerplexitySearchAgent`, `LangChainChatAgent`
  with `shouldSearchWeb`, `_getLLM`, `_streamGenerate`, `processMessage`);
- `src/tools/PerplexitySearchTool.js` (`PerplexitySearchTool._call`);
- `GoogleGroundingTool` (`_call`, `_parseCitations`);
- `src/server.js` (the `/chat` endpoint).

Machine timestamps are `Int` milliseconds; external collaborators (the
Perplexity HTTP API, the Gemini grounded-generation API, the LLM token
streams, and the LangChain prompt-template formatter) are oracles supplied
in an `Env` record, one per request. JavaScript object-property caches are
association lists with last-write-wins insertion.
-/

namespace WebSearch

/-- JS `String.prototype.toLowerCase` restricted to ASCII letters, which is
all the repository's keyword tables and cache keys use. -/
def toLowerChar (c : Char) : Char :=
  if 'A' ≤ c ∧ c ≤ 'Z' then Char.ofNat (c.toNat + 32) else c

/-- Lowercase a string character by character. -/
def lowerStr (s : String) : String :=
  String.mk (s.data.map toLowerChar)

/-- Test whether `pat` occurs at the head of `l` (character list version). -/
def strLeads : List Char → List Char → Bool
  | [], _ => true
  | _ :: _, [] => false
  | p :: ps, c :: cs => p = c && strLeads ps cs

/-- Test whether `pat` occurs anywhere in `l`. -/
def occursIn (pat : List Char) : List Char → Bool
  | [] => pat.isEmpty
  | c :: cs => strLeads pat (c :: cs) || occursIn pat cs

/-- JS `s.includes(pat)`. -/
def sIncludes (s pat : String) : Bool :=
  occursIn pat.data s.data

/-- An apostrophe character, used by one of the dynamic-fact key phrases. -/
def apos : String :=
  (Char.ofNat 39).toString

/-- The time-sensitive keyword table of `shouldSearchWeb`
(`src/agents/searchAgent.js`). -/
def timeSensitiveKeywords : List String :=
  ["latest", "current", "recent", "news", "today", "yesterday", "now",
   "breaking", "update", "2024", "2025"]

/-- `LangChainChatAgent.shouldSearchWeb` (`src/agents/searchAgent.js`):
pure rule-based search-decision classifier. -/
def shouldSearchWeb (userInput : String) : Bool :=
  let lowerInput := lowerStr userInput
  if sIncludes lowerInput "search for" || sIncludes lowerInput "look up" ||
      sIncludes lowerInput "find information on" ||
      sIncludes lowerInput "web search for" then
    true
  else if timeSensitiveKeywords.any (fun keyword => sIncludes lowerInput keyword) then
    true
  else if sIncludes lowerInput "who is the current" ||
      sIncludes lowerInput "what is the stock price" ||
      sIncludes lowerInput "weather in" ||
      sIncludes lowerInput "election results" ||
      sIncludes lowerInput "current events" ||
      sIncludes lowerInput ("what" ++ apos ++ "s happening") then
    true
  else
    false

/-- One citation source inside Gemini citation metadata
(`GoogleGroundingTool._parseCitations` reads `uri` and `title`). -/
structure CitationSource where
  uri : String
  title : Option String
deriving DecidableEq

/-- Raw Gemini citation metadata; `citationSources` may be absent. -/
structure CitationMetadata where
  citationSources : Option (List CitationSource)
deriving DecidableEq

/-- A parsed citation as produced by `GoogleGroundingTool._parseCitations`. -/
structure ParsedCitation where
  url : String
  title : String
deriving DecidableEq

/-- `GoogleGroundingTool._parseCitations`: empty list when the metadata or
its `citationSources` field is missing, else map each source to
`{url: source.uri, title: source.title or "Untitled Source"}`. -/
def parseCitations : Option CitationMetadata → List ParsedCitation
  | none => []
  | some m =>
    match m.citationSources with
    | none => []
    | some sources =>
      sources.map (fun s => ⟨s.uri, s.title.getD "Untitled Source"⟩)

/-- A raw citation entry of a Perplexity response (`_parseSearchResult`
reads `citation.url`, which may be absent). -/
structure PCitation where
  url : Option String
deriving DecidableEq

/-- The `SearchResult` of `PerplexitySearchAgent`
(`src/agents/searchAgent.js`): normalized content, source URLs, raw
citations. -/
structure PSearchResult where
  content : String
  sources : List String
  citations : List PCitation
deriving DecidableEq

/-- Entry of the dispatcher-level search cache
(`this.searchCache[cacheKey] = {data: {content, sources, toolUsed}, timestamp}`). -/
structure DEntryData where
  content : String
  sources : List String
  toolUsed : String
deriving DecidableEq

/-- A dispatcher-level cache entry with its insertion timestamp. -/
structure DEntry where
  data : DEntryData
  timestamp : Int
deriving DecidableEq

/-- Entry of the Perplexity tool cache
(`this.cache[cacheKey] = {data: result, timestamp}`). -/
structure PEntry where
  data : PSearchResult
  timestamp : Int
deriving DecidableEq

/-- Entry of the Google grounding tool cache
(`this.cache[cacheKey] = {data: content, timestamp, citations}`). -/
structure GEntry where
  data : String
  timestamp : Int
  citations : Option CitationMetadata
deriving DecidableEq

/-- Raw property read on a JS object cache: first binding for the key. -/
def cacheFind {α : Type} (c : List (String × α)) (k : String) : Option α :=
  (c.find? (fun p => p.1 == k)).map (fun p => p.2)

/-- JS property assignment on an object cache: overwrite the key. -/
def cacheInsert {α : Type} (c : List (String × α)) (k : String) (v : α) :
    List (String × α) :=
  (k, v) :: c.filter (fun p => p.1 != k)

/-- Dispatcher-level cache lookup with the TTL check of
`processMessage`: a hit requires `Date.now() - timestamp < searchCacheTTL`. -/
def dispatchLookup (c : List (String × DEntry)) (k : String) (now ttl : Int) :
    Option DEntryData :=
  match cacheFind c k with
  | some e => if now - e.timestamp < ttl then some e.data else none
  | none => none

/-- Perplexity tool cache lookup with the TTL check of
`PerplexitySearchTool._call`. -/
def pToolLookup (c : List (String × PEntry)) (k : String) (now ttl : Int) :
    Option PSearchResult :=
  match cacheFind c k with
  | some e => if now - e.timestamp < ttl then some e.data else none
  | none => none

/-- Google grounding tool cache lookup with the TTL check of
`GoogleGroundingTool._call`; a hit returns the cached content directly. -/
def gToolLookup (c : List (String × GEntry)) (k : String) (now ttl : Int) :
    Option String :=
  match cacheFind c k with
  | some e => if now - e.timestamp < ttl then some e.data else none
  | none => none

/-- `this.searchCacheTTL = 5 * 60 * 1000` in the agent constructor. -/
def searchCacheTTL : Int := 5 * 60 * 1000

/-- `this.cacheTTL = 5 * 60 * 1000` in `PerplexitySearchTool`. -/
def perplexityCacheTTL : Int := 5 * 60 * 1000

/-- `this.cacheTTL = 5 * 60 * 1000` in `GoogleGroundingTool`. -/
def googleCacheTTL : Int := 5 * 60 * 1000

/-- Error thrown by the Gemini grounded-generation call:
`GoogleGenerativeAIFetchError` instances are re-wrapped by `_call`, other
errors are rethrown unchanged. -/
structure GErr where
  isFetchError : Bool
  msg : String
deriving DecidableEq

/-- Successful payload of one Gemini grounded-generation upstream call:
the response text and the raw citation metadata of the first candidate. -/
structure GroundingUpstream where
  content : String
  citationMetadata : Option CitationMetadata
deriving DecidableEq

/-- Outcome of one `llm.stream` call: either the full list of chunk
contents, or the chunk contents delivered before a mid-stream failure with
the failure message. Empty strings model chunks with empty content. -/
inductive StreamOutcome where
  | ok (chunks : List String)
  | fail (delivered : List String) (errMsg : String)
deriving DecidableEq

/-- Per-request oracle for all external collaborators: the wall clock, the
two search backends, the main LLM token stream, the LangChain template
formatter (`ERROR_FALLBACK_PROMPT.formatMessages` and
`RAG_PROMPT_TEMPLATE.formatMessages`, which can throw on malformed
template input), and the two possible fallback streams. -/
structure Env where
  now : Int
  googleUpstream : Except GErr GroundingUpstream
  perplexityUpstream : Except String PSearchResult
  mainStream : StreamOutcome
  fallbackFormat : Except String Unit
  ragFormat : Except String Unit
  openaiFastStream : List String
  googleFastStream : List String

/-- Mutable state of one `LangChainChatAgent` plus which API keys were
configured at construction (`_initializeModels` / `_initializeTools`
create model pairs and tools exactly for the configured keys). -/
structure Agent where
  openaiKey : Bool
  googleKey : Bool
  anthropicKey : Bool
  perplexityKey : Bool
  searchCache : List (String × DEntry)
  perplexityCache : List (String × PEntry)
  googleCache : List (String × GEntry)
deriving DecidableEq

/-- Whether `this.models[key]` is defined: `_initializeModels` registers
`<provider>_capable` and `<provider>_fast` for each configured provider. -/
def hasModelKey (ag : Agent) (key : String) : Bool :=
  ((key == "openai_capable" || key == "openai_fast") && ag.openaiKey) ||
  ((key == "google_capable" || key == "google_fast") && ag.googleKey) ||
  ((key == "anthropic_capable" || key == "anthropic_fast") && ag.anthropicKey)

/-- A resolved LLM client reference. -/
inductive LLMRef where
  | fast (provider : String)
  | capable (provider : String)
  | fresh (provider : String) (model : String)
deriving DecidableEq

/-- `LangChainChatAgent._getLLM`: `null` when neither model key of the
provider exists; `fast` tier when the name contains "fast"; a fresh
request-scoped client for explicit non-default names; else `capable`. -/
def getLLM (ag : Agent) (modelProvider modelName : String) : Option LLMRef :=
  if !hasModelKey ag (modelProvider ++ "_capable") &&
      !hasModelKey ag (modelProvider ++ "_fast") then
    none
  else if sIncludes modelName "fast" then
    some (.fast modelProvider)
  else if modelProvider == "openai" && modelName != "gpt-4-turbo" &&
      modelName != "gpt-3.5-turbo" then
    some (.fresh modelProvider modelName)
  else if modelProvider == "google" && modelName != "gemini-2.5-pro" &&
      modelName != "gemini-2.5-pro" then
    some (.fresh modelProvider modelName)
  else if modelProvider == "anthropic" && modelName != "claude-3-sonnet-20240229" &&
      modelName != "claude-3-haiku-20240307" then
    some (.fresh modelProvider modelName)
  else
    some (.capable modelProvider)

/-- Result of one tool `_call`: the returned content or the thrown error
message, the updated tool cache, and the number of upstream API calls. -/
structure PToolOut where
  result : Except String String
  cache : List (String × PEntry)
  upstreamCalls : Nat

/-- `PerplexitySearchTool._call`: cache hit returns the cached content
with no upstream call; on a miss, `searchWeb` either succeeds (result
cached, content returned) or throws, re-wrapped as
`Failed to perform Perplexity search: <msg>`. The oracle
`env.perplexityUpstream` stands for `PerplexitySearchAgent.searchWeb`,
whose error value is the message it throws. -/
def perplexityToolCall (cache : List (String × PEntry)) (env : Env)
    (query : String) : PToolOut :=
  let cacheKey := lowerStr query
  match pToolLookup cache cacheKey env.now perplexityCacheTTL with
  | some r => ⟨.ok r.content, cache, 0⟩
  | none =>
    match env.perplexityUpstream with
    | .ok result =>
      ⟨.ok result.content, cacheInsert cache cacheKey ⟨result, env.now⟩, 1⟩
    | .error e =>
      ⟨.error ("Failed to perform Perplexity search: " ++ e), cache, 1⟩

/-- Result of one `GoogleGroundingTool._call`. -/
structure GToolOut where
  result : Except String String
  cache : List (String × GEntry)
  upstreamCalls : Nat

/-- `GoogleGroundingTool._call`: key `grounded_<lower query>`; cache hit
returns the cached content; on a miss the grounded generation either
succeeds (content plus citation metadata cached) or throws, where a
`GoogleGenerativeAIFetchError` is re-wrapped as
`Google Grounding failed: <msg>.` and any other error is rethrown. -/
def googleToolCall (cache : List (String × GEntry)) (env : Env)
    (query : String) : GToolOut :=
  let cacheKey := "grounded_" ++ lowerStr query
  match gToolLookup cache cacheKey env.now googleCacheTTL with
  | some content => ⟨.ok content, cache, 0⟩
  | none =>
    match env.googleUpstream with
    | .ok u =>
      ⟨.ok u.content, cacheInsert cache cacheKey ⟨u.content, env.now, u.citationMetadata⟩, 1⟩
    | .error ge =>
      ⟨.error (if ge.isFetchError then "Google Grounding failed: " ++ ge.msg ++ "." else ge.msg),
        cache, 1⟩

/-- Result of `_streamGenerate`: the yielded text deltas, an exception
escaping the generator (only possible when the fallback-prompt formatting
itself throws inside the catch block), and which fallback model streamed
the apology, if any. -/
structure GenOut where
  yielded : List String
  escaped : Option String
  fallbackUsed : Option String
deriving DecidableEq

/-- `LangChainChatAgent._streamGenerate`: yields each non-empty chunk of
the main stream; on a mid-stream failure it formats the apology prompt and
streams it through `this.models.openai_fast` if present, else
`this.models.google_fast`, else yields a single synthetic
`Error generating response: <msg>` delta. The fallback stream yields
`chunk.content || ''`, i.e. empty chunks are not filtered there. -/
def streamGenerate (ag : Agent) (env : Env) (_originalQuery : String) : GenOut :=
  match env.mainStream with
  | .ok chunks => ⟨chunks.filter (fun c => c != ""), none, none⟩
  | .fail delivered errMsg =>
    let yielded := delivered.filter (fun c => c != "")
    match env.fallbackFormat with
    | .error e => ⟨yielded, some e, none⟩
    | .ok _ =>
      if ag.openaiKey then
        ⟨yielded ++ env.openaiFastStream, none, some "openai_fast"⟩
      else if ag.googleKey then
        ⟨yielded ++ env.googleFastStream, none, some "google_fast"⟩
      else
        ⟨yielded ++ ["Error generating response: " ++ errMsg], none, none⟩

/-- Outcome of the search section of `processMessage` (the dispatcher):
the final values of the local variables `needsSearch`, `searchToolUsed`,
`searchContent`, `searchSources`, `isSearchSuccessful`, the updated agent
state, which adapter branch ran (`selected`), how many adapter `_call`
invocations happened, and how many upstream API calls each backend made. -/
structure SearchStageOut where
  needsSearch : Bool
  searchToolUsed : String
  searchContent : String
  searchSources : List String
  isSearchSuccessful : Bool
  agent : Agent
  selected : Option String
  adapterCalls : Nat
  googleUpstreamCalls : Nat
  perplexityUpstreamCalls : Nat

/-- The `if (needsSearch) { ... }` section of
`LangChainChatAgent.processMessage`: dispatcher-level cache lookup under
key `<lower message>-<provider>`, adapter selection (Google grounding for
`provider == "google"` when configured, else Perplexity when configured,
else a no-tool placeholder with `needsSearch` forced false), soft-fail
handling of adapter errors, and the success-only dispatcher cache write. -/
def searchStage (ag : Agent) (env : Env) (userMessage modelProvider : String)
    (needsSearch : Bool) : SearchStageOut :=
  if needsSearch then
    let cacheKey := lowerStr userMessage ++ "-" ++ modelProvider
    match dispatchLookup ag.searchCache cacheKey env.now searchCacheTTL with
    | some d => ⟨true, d.toolUsed, d.content, d.sources, true, ag, none, 0, 0, 0⟩
    | none =>
      if modelProvider == "google" && ag.googleKey then
        let out := googleToolCall ag.googleCache env userMessage
        match out.result with
        | .ok content =>
          let sources :=
            ((parseCitations ((cacheFind out.cache ("grounded_" ++ lowerStr userMessage)).bind
                (fun e => e.citations))).map (fun c => c.url)).filter (fun u => u != "")
          let ag2 := { ag with googleCache := out.cache }
          ⟨true, "google_search_grounding", content, sources, true,
            { ag2 with searchCache := (cacheInsert ag2.searchCache cacheKey
                ⟨⟨content, sources, "google_search_grounding"⟩, env.now⟩) },
            some "google_search_grounding", 1, out.upstreamCalls, 0⟩
        | .error msg =>
          ⟨true, "google_search_grounding_failed",
            "Error: Google Grounding failed for \"" ++ userMessage ++ "\": " ++ msg,
            [], false, { ag with googleCache := out.cache },
            some "google_search_grounding", 1, out.upstreamCalls, 0⟩
      else if ag.perplexityKey then
        let out := perplexityToolCall ag.perplexityCache env userMessage
        match out.result with
        | .ok content =>
          let sources :=
            match cacheFind out.cache (lowerStr userMessage) with
            | some e => e.data.sources
            | none => []
          let ag2 := { ag with perplexityCache := out.cache }
          ⟨true, "perplexity_web_search", content, sources, true,
            { ag2 with searchCache := (cacheInsert ag2.searchCache cacheKey
                ⟨⟨content, sources, "perplexity_web_search"⟩, env.now⟩) },
            some "perplexity_web_search", 1, 0, out.upstreamCalls⟩
        | .error msg =>
          ⟨true, "perplexity_web_search_failed",
            "Error: Perplexity search failed for \"" ++ userMessage ++ "\": " ++ msg,
            [], false, { ag with perplexityCache := out.cache },
            some "perplexity_web_search", 1, 0, out.upstreamCalls⟩
      else
        ⟨false, "none", "(No search tool available for your request.)", [], false,
          ag, none, 0, 0, 0⟩
  else
    ⟨false, "none", "", [], false, ag, none, 0, 0, 0⟩

/-- A frame of the per-request event stream. -/
inductive Event where
  | metadata (usedSearch : Bool) (searchTool : String)
      (searchSources : List String) (isSearchSuccessful : Bool)
  | chunk (data : String)
  | error (data : String)
  | endEvent
deriving DecidableEq

/-- Whether a frame is the `end` event. -/
def Event.isEnd : Event → Bool
  | .endEvent => true
  | _ => false

/-- Whether a frame is a `metadata` event. -/
def Event.isMeta : Event → Bool
  | .metadata _ _ _ _ => true
  | _ => false

/-- Whether a frame is a `chunk` event. -/
def Event.isChunk : Event → Bool
  | .chunk _ => true
  | _ => false

/-- Whether a frame is an `error` event. -/
def Event.isError : Event → Bool
  | .error _ => true
  | _ => false

/-- Result of one `processMessage` run (or of the `/chat` endpoint): the
emitted event frames in order, the final agent state, and the
instrumentation counters of the search stage plus the fallback model of
the generator, if one streamed. -/
structure ProcOut where
  events : List Event
  agent : Agent
  adapterCalls : Nat
  googleUpstreamCalls : Nat
  perplexityUpstreamCalls : Nat
  fallbackUsed : Option String

/-- The catch clause of `processMessage` yields
`error.message || "An unexpected error occurred during processing."`. -/
def topLevelErrorText (e : String) : String :=
  if e == "" then "An unexpected error occurred during processing." else e

/-- `LangChainChatAgent.processMessage`: resolve the LLM (error plus end
on failure), decide the search, run the search stage, emit `metadata`,
build the prompt (the RAG template formatter can throw, reaching the
top-level catch), stream chunks through `_streamGenerate` (whose own
escape also reaches the top-level catch), and always emit a final `end`
from the `finally` block. -/
def processMessage (ag : Agent) (env : Env)
    (userMessage modelProvider modelName : String) (forceSearch : Bool) : ProcOut :=
  match getLLM ag modelProvider modelName with
  | none =>
    ⟨[.error ("Error: Model provider \"" ++ modelProvider ++
        "\" not initialized or model \"" ++ modelName ++ "\" not found. Check API keys."),
      .endEvent], ag, 0, 0, 0, none⟩
  | some _llm =>
    let needsSearch := forceSearch || shouldSearchWeb userMessage
    let s := searchStage ag env userMessage modelProvider needsSearch
    let meta := Event.metadata s.needsSearch s.searchToolUsed s.searchSources s.isSearchSuccessful
    let promptOutcome : Except String Unit :=
      if s.needsSearch && s.isSearchSuccessful then env.ragFormat else .ok ()
    match promptOutcome with
    | .error e =>
      ⟨[meta, .error (topLevelErrorText e), .endEvent], s.agent,
        s.adapterCalls, s.googleUpstreamCalls, s.perplexityUpstreamCalls, none⟩
    | .ok _ =>
      let g := streamGenerate ag env userMessage
      match g.escaped with
      | some e =>
        ⟨[meta] ++ g.yielded.map Event.chunk ++ [.error (topLevelErrorText e), .endEvent],
          s.agent, s.adapterCalls, s.googleUpstreamCalls, s.perplexityUpstreamCalls,
          g.fallbackUsed⟩
      | none =>
        ⟨[meta] ++ g.yielded.map Event.chunk ++ [.endEvent],
          s.agent, s.adapterCalls, s.googleUpstreamCalls, s.perplexityUpstreamCalls,
          g.fallbackUsed⟩

/-- The parsed JSON body of a `/chat` request; absent properties are
`none` and take the destructuring defaults of `src/server.js`. -/
structure ChatRequestBody where
  message : Option String
  modelProvider : Option String
  modelName : Option String
  forceSearch : Option Bool

/-- The `/chat` endpoint of `src/server.js`: defaults
`modelProvider = "openai"`, `modelName = "gpt-4-turbo"`,
`forceSearch = false`; a missing or empty `message` (falsy in JS) writes
exactly an `error` frame then an `end` frame and returns before any
processing; otherwise the frames are those of `processMessage`. -/
def serverChat (ag : Agent) (env : Env) (body : ChatRequestBody) : ProcOut :=
  let modelProvider := body.modelProvider.getD "openai"
  let modelName := body.modelName.getD "gpt-4-turbo"
  let forceSearch := body.forceSearch.getD false
  match body.message with
  | none => ⟨[.error "Message is required.", .endEvent], ag, 0, 0, 0, none⟩
  | some m =>
    if m == "" then
      ⟨[.error "Message is required.", .endEvent], ag, 0, 0, 0, none⟩
    else
      processMessage ag env m modelProvider modelName forceSearch

/-- A fully configured agent with empty caches, used by concrete runs. -/
def agAll : Agent :=
  ⟨true, true, true, true, [], [], []⟩

/-- An agent with only Anthropic and OpenAI credentials configured. -/
def agAnthOpenai : Agent :=
  ⟨true, false, true, false, [], [], []⟩

/-- An oracle where both search backends succeed and the main stream
delivers two chunks, one of them empty. -/
def envOk : Env :=
  ⟨1000000,
   .ok ⟨"grounded answer", some ⟨some [⟨"http://g.example", some "G"⟩]⟩⟩,
   .ok ⟨"perplexity answer", ["http://p.example"], [⟨some "http://p.example"⟩]⟩,
   .ok ["Hello", "", " world"],
   .ok (), .ok (),
   ["sorry stream"], ["g sorry stream"]⟩

/-- A later oracle (100 seconds after `envOk`) whose upstream backends all
fail, showing cached dispatches never consult them and failed dispatches
degrade softly. -/
def envOk2 : Env :=
  ⟨1100000, .error ⟨true, "grounding down"⟩, .error "perplexity down",
   .ok ["later answer"], .ok (), .ok (), [], []⟩

/-- An oracle whose main LLM stream fails immediately mid-stream. -/
def envFail : Env :=
  ⟨1000000,
   .ok ⟨"grounded answer", none⟩,
   .ok ⟨"perplexity answer", [], []⟩,
   .fail [] "upstream connection reset",
   .ok (), .ok (),
   ["apology from fallback"], ["google apology"]⟩

/-- Chunk frames satisfy none of the non-chunk frame predicates. -/
theorem filter_map_chunk_eq_nil (p : Event → Bool)
    (h : ∀ s, p (Event.chunk s) = false) (l : List String) :
    (l.map Event.chunk).filter p = [] := by
  induction l with
  | nil => rfl
  | cons a t ih => simp [List.filter_cons, h, ih]

/-- A list ending in an element has that element as its last. -/
theorem getLast?_append_single {α : Type} (l : List α) (a : α) :
    (l ++ [a]).getLast? = some a := by
  exact List.getLast?_concat l

/-- Last element of `a :: (l ++ [x, y])`. -/
theorem getLast?_cons_append_pair {α : Type} (a x y : α) (l : List α) :
    (a :: (l ++ [x, y])).getLast? = some y := by
  have h : a :: (l ++ [x, y]) = (a :: (l ++ [x])) ++ [y] := by simp
  rw [h]
  exact getLast?_append_single _ _

/-- Last element of `a :: (l ++ [y])`. -/
theorem getLast?_cons_append_single {α : Type} (a y : α) (l : List α) :
    (a :: (l ++ [y])).getLast? = some y := by
  have h : a :: (l ++ [y]) = (a :: l) ++ [y] := by simp
  rw [h]
  exact getLast?_append_single _ _

/-- If a list of frames contains no `end` frame, appending one `end` frame
yields a sequence with exactly one `end`, in final position. -/
theorem end_tail_shape (pre : List Event) (hpre : pre.filter Event.isEnd = []) :
    ((pre ++ [Event.endEvent]).filter Event.isEnd).length = 1 ∧
    (pre ++ [Event.endEvent]).getLast? = some Event.endEvent := by
  refine ⟨?_, getLast?_append_single _ _⟩
  simp [List.filter_append, hpre, Event.isEnd]

/-- C9: the search-decision classifier `shouldSearchWeb` is a pure
function of the message text, with
`shouldSearchWeb "search for the capital of France" = true`,
`shouldSearchWeb "explain quantum entanglement" = false` and
`shouldSearchWeb "latest news today" = true`. -/
theorem C9_shouldSearch_examples :
    shouldSearchWeb "search for the capital of France" = true ∧
    shouldSearchWeb "explain quantum entanglement" = false ∧
    shouldSearchWeb "latest news today" = true := by
  refine ⟨by decide, by decide, by decide⟩

/-- C6: in each of the three TTL caches (the dispatcher-level search
cache and the internal caches of the Perplexity and Google grounding
tools), an entry with `ttl ≤ now - insertedAt` is treated exactly as a
miss by the lookup, including at the exact boundary
`now - insertedAt = ttl`. -/
theorem C6_ttl_boundary_expiry (dc : List (String × DEntry))
    (pc : List (String × PEntry)) (gc : List (String × GEntry))
    (k : String) (now ttl : Int) (de : DEntry) (pe : PEntry) (ge : GEntry)
    (hd : cacheFind dc k = some de) (hdt : ttl ≤ now - de.timestamp)
    (hp : cacheFind pc k = some pe) (hpt : ttl ≤ now - pe.timestamp)
    (hg : cacheFind gc k = some ge) (hgt : ttl ≤ now - ge.timestamp) :
    dispatchLookup dc k now ttl = none ∧
    pToolLookup pc k now ttl = none ∧
    gToolLookup gc k now ttl = none := by
  unfold dispatchLookup pToolLookup gToolLookup
  rw [hd, hp, hg]
  refine ⟨?_, ?_, ?_⟩
  · exact if_neg (by omega)
  · exact if_neg (by omega)
  · exact if_neg (by omega)

/-- Witness for C6 at the exact TTL boundary: entries inserted at time 0
looked up at `now = 300000` with the 5-minute TTL are all misses. -/
theorem C6_ttl_boundary_expiry_witness :
    cacheFind [("k", (⟨⟨"c", [], "t"⟩, 0⟩ : DEntry))] "k" = some ⟨⟨"c", [], "t"⟩, 0⟩ ∧
    (300000 : Int) ≤ 300000 - (0 : Int) ∧
    dispatchLookup [("k", (⟨⟨"c", [], "t"⟩, 0⟩ : DEntry))] "k" 300000 300000 = none ∧
    pToolLookup [("k", (⟨⟨"c", [], []⟩, 0⟩ : PEntry))] "k" 300000 300000 = none ∧
    gToolLookup [("k", (⟨"c", 0, none⟩ : GEntry))] "k" 300000 300000 = none := by
  have h := C6_ttl_boundary_expiry
    [("k", (⟨⟨"c", [], "t"⟩, 0⟩ : DEntry))]
    [("k", (⟨⟨"c", [], []⟩, 0⟩ : PEntry))]
    [("k", (⟨"c", 0, none⟩ : GEntry))]
    "k" 300000 300000 ⟨⟨"c", [], "t"⟩, 0⟩ ⟨⟨"c", [], []⟩, 0⟩ ⟨"c", 0, none⟩
    (by decide) (by decide) (by decide) (by decide) (by decide) (by decide)
  exact ⟨by decide, by decide, h.1, h.2.1, h.2.2⟩

/-- C3: a request whose `message` field is missing or empty produces
exactly the frames `[error, end]`, leaves the agent state untouched, makes
no adapter or upstream call, and never reaches model resolution. -/
theorem C3_missing_message (ag : Agent) (env : Env) (body : ChatRequestBody)
    (h : body.message = none ∨ body.message = some "") :
    serverChat ag env body =
      ⟨[Event.error "Message is required.", Event.endEvent], ag, 0, 0, 0, none⟩ := by
  unfold serverChat
  rcases h with h | h
  · rw [h]
  · rw [h]
    rfl

/-- Witness for C3: the empty-message request on a fully configured
agent. -/
theorem C3_missing_message_witness :
    ((⟨some "", some "openai", none, none⟩ : ChatRequestBody).message = none ∨
      (⟨some "", some "openai", none, none⟩ : ChatRequestBody).message = some "") ∧
    serverChat agAll envOk ⟨some "", some "openai", none, none⟩ =
      ⟨[Event.error "Message is required.", Event.endEvent], agAll, 0, 0, 0, none⟩ := by
  exact ⟨Or.inr rfl,
    C3_missing_message agAll envOk ⟨some "", some "openai", none, none⟩ (Or.inr rfl)⟩

/-- Every event sequence produced by `processMessage` contains exactly
one `end` frame, in final position. -/
theorem processMessage_end_shape (ag : Agent) (env : Env)
    (msg provider name : String) (force : Bool) :
    ((processMessage ag env msg provider name force).events.filter Event.isEnd).length = 1 ∧
    (processMessage ag env msg provider name force).events.getLast? = some Event.endEvent := by
  have hchunk := filter_map_chunk_eq_nil Event.isEnd (fun _ => rfl)
  unfold processMessage
  cases hllm : getLLM ag provider name with
  | none => exact ⟨rfl, rfl⟩
  | some llm =>
    dsimp only
    split
    · exact ⟨rfl, rfl⟩
    · split
      · constructor
        · simp [List.filter_append, hchunk, Event.isEnd]
        · exact getLast?_cons_append_pair _ _ _ _
      · constructor
        · simp [List.filter_append, hchunk, Event.isEnd]
        · exact getLast?_cons_append_single _ _ _

/-- C1: for every request, on every path (normal streaming, unresolved
model, missing `message`, and top-level caught exception), exactly one
`end` event is emitted and it is the final frame of the event sequence. -/
theorem C1_end_exactly_once_final (ag : Agent) (env : Env) (body : ChatRequestBody) :
    ((serverChat ag env body).events.filter Event.isEnd).length = 1 ∧
    (serverChat ag env body).events.getLast? = some Event.endEvent := by
  unfold serverChat
  cases hm : body.message with
  | none => exact ⟨rfl, rfl⟩
  | some m =>
    dsimp only
    cases hmeq : (m == "") with
    | true =>
      simp only [hmeq, if_true]
      exact ⟨rfl, rfl⟩
    | false =>
      simp only [hmeq, Bool.false_eq_true, if_false]
      exact processMessage_end_shape ag env m (body.modelProvider.getD "openai")
        (body.modelName.getD "gpt-4-turbo") (body.forceSearch.getD false)

/-- C2: whenever the model resolves (so the request reaches the
search-decision stage), the event sequence starts with a `metadata` frame
and contains no further `metadata` frame; in particular the unique
`metadata` frame precedes every `chunk` frame. -/
theorem C2_metadata_once_before_chunks (ag : Agent) (env : Env)
    (userMessage modelProvider modelName : String) (forceSearch : Bool)
    (h : (getLLM ag modelProvider modelName).isSome = true) :
    ∃ m rest,
      (processMessage ag env userMessage modelProvider modelName forceSearch).events =
        m :: rest ∧
      Event.isMeta m = true ∧ rest.filter Event.isMeta = [] := by
  have hchunk := filter_map_chunk_eq_nil Event.isMeta (fun _ => rfl)
  obtain ⟨llm, hllm⟩ := Option.isSome_iff_exists.mp h
  unfold processMessage
  rw [hllm]
  dsimp only
  split
  · exact ⟨_, _, rfl, rfl, rfl⟩
  · split
    · refine ⟨_, _, rfl, rfl, ?_⟩
      simp [List.filter_append, hchunk, Event.isMeta]
    · refine ⟨_, _, rfl, rfl, ?_⟩
      simp [List.filter_append, hchunk, Event.isMeta]

/-- Witness for C2: a resolved OpenAI request emits its `metadata` frame
first and only once. -/
theorem C2_metadata_once_before_chunks_witness :
    (getLLM agAll "openai" "gpt-4-turbo").isSome = true ∧
    (∃ m rest,
      (processMessage agAll envOk "hi" "openai" "gpt-4-turbo" false).events = m :: rest ∧
      Event.isMeta m = true ∧ rest.filter Event.isMeta = []) :=
  ⟨by decide,
    C2_metadata_once_before_chunks agAll envOk "hi" "openai" "gpt-4-turbo" false (by decide)⟩

/-- Counterexample to C4: with Anthropic and OpenAI configured (so
`anthropic_fast` exists), a mid-stream failure on an anthropic-provider
request streams its apology through `openai_fast`, not through the same
provider's `anthropic_fast`: the fallback chain of `_streamGenerate` is
hardwired to `openai_fast` then `google_fast`. -/
theorem C4_counterexample :
    agAnthOpenai.anthropicKey = true ∧
    envFail.mainStream = StreamOutcome.fail [] "upstream connection reset" ∧
    (processMessage agAnthOpenai envFail "hi" "anthropic" "claude-3-sonnet-20240229"
      false).fallbackUsed = some "openai_fast" ∧
    ¬ (processMessage agAnthOpenai envFail "hi" "anthropic" "claude-3-sonnet-20240229"
      false).fallbackUsed = some "anthropic_fast" := by
  refine ⟨rfl, rfl, by decide, by decide⟩

/-- C4 (amended): on any mid-stream generation failure the generator
streams an apology parameterized by the original query through
`openai_fast` when OpenAI is configured, else through `google_fast` when
Google is configured, regardless of the provider of the failing stream;
with neither configured it yields one synthetic error delta. -/
theorem C4_amended_fallback_chain (ag : Agent) (env : Env) (q : String)
    (delivered : List String) (e : String)
    (hs : env.mainStream = StreamOutcome.fail delivered e)
    (hf : env.fallbackFormat = Except.ok ()) :
    (streamGenerate ag env q).fallbackUsed =
      (if ag.openaiKey then some "openai_fast"
       else if ag.googleKey then some "google_fast" else none) ∧
    (streamGenerate ag env q).escaped = none ∧
    (ag.openaiKey = false → ag.googleKey = false →
      (streamGenerate ag env q).yielded =
        delivered.filter (fun c => c != "") ++ ["Error generating response: " ++ e]) := by
  unfold streamGenerate
  rw [hs, hf]
  cases ho : ag.openaiKey <;> cases hg : ag.googleKey <;> simp [ho, hg]

/-- Witness for the amended C4: a concrete mid-stream failure on a
configured agent selects `openai_fast`. -/
theorem C4_amended_fallback_chain_witness :
    envFail.mainStream = StreamOutcome.fail [] "upstream connection reset" ∧
    envFail.fallbackFormat = Except.ok () ∧
    ((streamGenerate agAnthOpenai envFail "hi").fallbackUsed =
      (if agAnthOpenai.openaiKey then some "openai_fast"
       else if agAnthOpenai.googleKey then some "google_fast" else none) ∧
     (streamGenerate agAnthOpenai envFail "hi").escaped = none ∧
     (agAnthOpenai.openaiKey = false → agAnthOpenai.googleKey = false →
       (streamGenerate agAnthOpenai envFail "hi").yielded =
         List.filter (fun c => c != "") [] ++
           ["Error generating response: " ++ "upstream connection reset"])) :=
  ⟨rfl, rfl,
    C4_amended_fallback_chain agAnthOpenai envFail "hi" [] "upstream connection reset" rfl rfl⟩

/-- Overwriting a key makes it the first binding found. -/
theorem cacheFind_insert_self {α : Type} (c : List (String × α)) (k : String) (v : α) :
    cacheFind (cacheInsert c k v) k = some v := by
  unfold cacheFind cacheInsert
  rw [List.find?_cons_of_pos _ (by simp)]
  rfl

/-- A dispatcher-cache entry written at time `t` is a hit at any time
`now` with `now - t < ttl`. -/
theorem dispatchLookup_insert_self (c : List (String × DEntry)) (k : String)
    (d : DEntryData) (t now ttl : Int) (h : now - t < ttl) :
    dispatchLookup (cacheInsert c k ⟨d, t⟩) k now ttl = some d := by
  unfold dispatchLookup
  rw [cacheFind_insert_self]
  exact if_pos h

/-- A key with no binding at all is a miss at every time. -/
theorem dispatchLookup_of_find_none (c : List (String × DEntry)) (k : String)
    (now ttl : Int) (h : cacheFind c k = none) :
    dispatchLookup c k now ttl = none := by
  unfold dispatchLookup
  rw [h]

/-- When the dispatcher cache misses and the live search succeeds, the
dispatcher cache gains exactly the entry
`{content, sources, toolUsed}` under `<lower query>-<provider>` with the
current timestamp, and the other state is otherwise only the tool cache. -/
theorem searchStage_success_write (ag : Agent) (env : Env) (q provider : String)
    (hmiss : dispatchLookup ag.searchCache (lowerStr q ++ "-" ++ provider) env.now
      searchCacheTTL = none)
    (hsucc : (searchStage ag env q provider true).isSearchSuccessful = true) :
    (searchStage ag env q provider true).agent.searchCache =
      cacheInsert ag.searchCache (lowerStr q ++ "-" ++ provider)
        ⟨⟨(searchStage ag env q provider true).searchContent,
          (searchStage ag env q provider true).searchSources,
          (searchStage ag env q provider true).searchToolUsed⟩, env.now⟩ := by
  unfold searchStage at hsucc ⊢
  rw [if_pos rfl] at hsucc ⊢
  dsimp only at hsucc ⊢
  rw [hmiss] at hsucc ⊢
  dsimp only at hsucc ⊢
  cases hgb : provider == "google" && ag.googleKey with
  | true =>
    simp only [hgb, if_true] at hsucc ⊢
    cases hres : (googleToolCall ag.googleCache env q).result with
    | ok content =>
      simp only [hres] at hsucc ⊢
    | error msg =>
      simp only [hres] at hsucc
      simp at hsucc
  | false =>
    simp only [hgb] at hsucc ⊢
    rw [if_neg (by simp)] at hsucc ⊢
    cases hpk : ag.perplexityKey with
    | true =>
      simp only [hpk, if_true] at hsucc ⊢
      cases hres : (perplexityToolCall ag.perplexityCache env q).result with
      | ok content =>
        simp only [hres] at hsucc ⊢
      | error msg =>
        simp only [hres] at hsucc
        simp at hsucc
    | false =>
      simp only [hpk] at hsucc ⊢
      rw [if_neg (by simp)] at hsucc ⊢
      simp at hsucc

/-- C5: if a dispatch stored a successful search result (dispatcher-cache
miss followed by a successful live search), a second dispatch of the
identical `(query, provider)` pair within the TTL window makes zero
adapter calls and zero upstream calls, and returns the identical
`content` and `sources` with `isSearchSuccessful = true`. -/
theorem C5_second_dispatch_cached (ag : Agent) (env1 env2 : Env) (q provider : String)
    (hmiss : dispatchLookup ag.searchCache (lowerStr q ++ "-" ++ provider) env1.now
      searchCacheTTL = none)
    (hsucc : (searchStage ag env1 q provider true).isSearchSuccessful = true)
    (httl : env2.now - env1.now < searchCacheTTL) :
    (searchStage (searchStage ag env1 q provider true).agent env2 q provider
      true).adapterCalls = 0 ∧
    (searchStage (searchStage ag env1 q provider true).agent env2 q provider
      true).googleUpstreamCalls = 0 ∧
    (searchStage (searchStage ag env1 q provider true).agent env2 q provider
      true).perplexityUpstreamCalls = 0 ∧
    (searchStage (searchStage ag env1 q provider true).agent env2 q provider
      true).searchContent = (searchStage ag env1 q provider true).searchContent ∧
    (searchStage (searchStage ag env1 q provider true).agent env2 q provider
      true).searchSources = (searchStage ag env1 q provider true).searchSources ∧
    (searchStage (searchStage ag env1 q provider true).agent env2 q provider
      true).isSearchSuccessful = true := by
  have hwrite := searchStage_success_write ag env1 q provider hmiss hsucc
  have hhit : dispatchLookup (searchStage ag env1 q provider true).agent.searchCache
      (lowerStr q ++ "-" ++ provider) env2.now searchCacheTTL =
      some ⟨(searchStage ag env1 q provider true).searchContent,
            (searchStage ag env1 q provider true).searchSources,
            (searchStage ag env1 q provider true).searchToolUsed⟩ := by
    rw [hwrite]
    exact dispatchLookup_insert_self _ _ _ _ _ _ httl
  generalize hs1 : searchStage ag env1 q provider true = s1 at hhit ⊢
  unfold searchStage
  rw [if_pos rfl]
  dsimp only
  rw [hhit]
  exact ⟨rfl, rfl, rfl, rfl, rfl, rfl⟩

/-- Witness for C5: a concrete first dispatch through Perplexity followed
by a within-TTL second dispatch of the same query and provider. -/
theorem C5_second_dispatch_cached_witness :
    dispatchLookup agAll.searchCache (lowerStr "latest news today" ++ "-" ++ "openai")
      envOk.now searchCacheTTL = none ∧
    (searchStage agAll envOk "latest news today" "openai" true).isSearchSuccessful = true ∧
    envOk2.now - envOk.now < searchCacheTTL ∧
    ((searchStage (searchStage agAll envOk "latest news today" "openai" true).agent envOk2
        "latest news today" "openai" true).adapterCalls = 0 ∧
     (searchStage (searchStage agAll envOk "latest news today" "openai" true).agent envOk2
        "latest news today" "openai" true).googleUpstreamCalls = 0 ∧
     (searchStage (searchStage agAll envOk "latest news today" "openai" true).agent envOk2
        "latest news today" "openai" true).perplexityUpstreamCalls = 0 ∧
     (searchStage (searchStage agAll envOk "latest news today" "openai" true).agent envOk2
        "latest news today" "openai" true).searchContent =
       (searchStage agAll envOk "latest news today" "openai" true).searchContent ∧
     (searchStage (searchStage agAll envOk "latest news today" "openai" true).agent envOk2
        "latest news today" "openai" true).searchSources =
       (searchStage agAll envOk "latest news today" "openai" true).searchSources ∧
     (searchStage (searchStage agAll envOk "latest news today" "openai" true).agent envOk2
        "latest news today" "openai" true).isSearchSuccessful = true) :=
  ⟨by decide, by decide, by decide,
    C5_second_dispatch_cached agAll envOk envOk2 "latest news today" "openai"
      (by decide) (by decide) (by decide)⟩

/-- A character list starts with itself. -/
theorem strLeads_self (l : List Char) : strLeads l l = true := by
  induction l with
  | nil => rfl
  | cons c cs ih => simp [strLeads, ih]

/-- A pattern occurs in any list that extends it on the left. -/
theorem occursIn_append_of_occursIn (pat l1 l2 : List Char)
    (h : occursIn pat l2 = true) : occursIn pat (l1 ++ l2) = true := by
  induction l1 with
  | nil => exact h
  | cons c cs ih => simp [occursIn, ih]

/-- A pattern occurs in itself. -/
theorem occursIn_self (pat : List Char) : occursIn pat pat = true := by
  cases pat with
  | nil => rfl
  | cons c cs => simp [occursIn, strLeads_self]

/-- Adapter failures keep `isSearchSuccessful` false, tag `toolUsed` with
the adapter identifier suffixed `_failed`, embed the original error
message in `searchContent`, and leave the dispatcher cache (and the
configured keys) unchanged. -/
theorem searchStage_adapter_failure (ag : Agent) (env : Env) (q provider : String)
    (hmiss : dispatchLookup ag.searchCache (lowerStr q ++ "-" ++ provider) env.now
      searchCacheTTL = none)
    (hfail :
      ((provider == "google" && ag.googleKey) = true ∧
        ∃ m, (googleToolCall ag.googleCache env q).result = Except.error m) ∨
      ((provider == "google" && ag.googleKey) = false ∧ ag.perplexityKey = true ∧
        ∃ m, (perplexityToolCall ag.perplexityCache env q).result = Except.error m)) :
    (searchStage ag env q provider true).isSearchSuccessful = false ∧
    (∃ a, (searchStage ag env q provider true).selected = some a ∧
      (searchStage ag env q provider true).searchToolUsed = a ++ "_failed") ∧
    (∃ m, ((googleToolCall ag.googleCache env q).result = Except.error m ∨
           (perplexityToolCall ag.perplexityCache env q).result = Except.error m) ∧
      sIncludes (searchStage ag env q provider true).searchContent m = true) ∧
    (searchStage ag env q provider true).agent.searchCache = ag.searchCache ∧
    (searchStage ag env q provider true).agent.googleKey = ag.googleKey ∧
    (searchStage ag env q provider true).agent.perplexityKey = ag.perplexityKey := by
  unfold searchStage
  rw [if_pos rfl]
  dsimp only
  rw [hmiss]
  dsimp only
  rcases hfail with ⟨hgb, m, hres⟩ | ⟨hgb, hpk, m, hres⟩
  · simp only [hgb, if_true]
    rw [hres]
    dsimp only
    refine ⟨rfl, ⟨"google_search_grounding", rfl, rfl⟩, ⟨m, Or.inl rfl, ?_⟩, rfl, rfl, rfl⟩
    unfold sIncludes
    simp only [String.data_append]
    exact occursIn_append_of_occursIn _ _ _ (occursIn_self _)
  · simp only [hgb]
    rw [if_neg (by simp)]
    simp only [hpk, if_true]
    rw [hres]
    dsimp only
    refine ⟨rfl, ⟨"perplexity_web_search", rfl, rfl⟩, ⟨m, Or.inr rfl, ?_⟩, rfl, rfl, rfl⟩
    unfold sIncludes
    simp only [String.data_append]
    exact occursIn_append_of_occursIn _ _ _ (occursIn_self _)

/-- C7: when the selected search adapter's call throws, the error does
not propagate: `isSearchSuccessful` stays false, `toolUsed` is the
adapter identifier suffixed `_failed`, `searchContent` embeds the
original error message, and the pipeline continues to generation with no
`error` event and a final `end` event. -/
theorem C7_adapter_failure_soft (ag : Agent) (env : Env)
    (userMessage modelProvider modelName : String) (forceSearch : Bool)
    (hllm : (getLLM ag modelProvider modelName).isSome = true)
    (hneed : (forceSearch || shouldSearchWeb userMessage) = true)
    (hmiss : dispatchLookup ag.searchCache (lowerStr userMessage ++ "-" ++ modelProvider)
      env.now searchCacheTTL = none)
    (hfail :
      ((modelProvider == "google" && ag.googleKey) = true ∧
        ∃ m, (googleToolCall ag.googleCache env userMessage).result = Except.error m) ∨
      ((modelProvider == "google" && ag.googleKey) = false ∧ ag.perplexityKey = true ∧
        ∃ m, (perplexityToolCall ag.perplexityCache env userMessage).result = Except.error m))
    (hstream : (streamGenerate ag env userMessage).escaped = none) :
    (searchStage ag env userMessage modelProvider true).isSearchSuccessful = false ∧
    (∃ a, (searchStage ag env userMessage modelProvider true).selected = some a ∧
      (searchStage ag env userMessage modelProvider true).searchToolUsed = a ++ "_failed") ∧
    (∃ m, ((googleToolCall ag.googleCache env userMessage).result = Except.error m ∨
           (perplexityToolCall ag.perplexityCache env userMessage).result = Except.error m) ∧
      sIncludes (searchStage ag env userMessage modelProvider true).searchContent m = true) ∧
    (processMessage ag env userMessage modelProvider modelName forceSearch).events.filter
      Event.isError = [] ∧
    (processMessage ag env userMessage modelProvider modelName forceSearch).events.getLast?
      = some Event.endEvent := by
  obtain ⟨hsf, hsel, hinc, -, -, -⟩ :=
    searchStage_adapter_failure ag env userMessage modelProvider hmiss hfail
  have hev : (processMessage ag env userMessage modelProvider modelName forceSearch).events =
      Event.metadata (searchStage ag env userMessage modelProvider true).needsSearch
        (searchStage ag env userMessage modelProvider true).searchToolUsed
        (searchStage ag env userMessage modelProvider true).searchSources
        (searchStage ag env userMessage modelProvider true).isSearchSuccessful ::
      ((streamGenerate ag env userMessage).yielded.map Event.chunk ++ [Event.endEvent]) := by
    obtain ⟨llm, hllm2⟩ := Option.isSome_iff_exists.mp hllm
    unfold processMessage
    rw [hllm2]
    dsimp only
    rw [hneed, hsf]
    simp only [Bool.and_false]
    rw [if_neg (by simp)]
    dsimp only
    rw [hstream]
    rfl
  refine ⟨hsf, hsel, hinc, ?_, ?_⟩
  · rw [hev]
    simp [List.filter_cons, List.filter_append, Event.isError,
      filter_map_chunk_eq_nil Event.isError (fun _ => rfl)]
  · rw [hev]
    exact getLast?_cons_append_single _ _ _

/-- Witness for C7: a Perplexity upstream failure on an OpenAI request is
folded into the result and the stream still ends with `end` and no
`error` frame. -/
theorem C7_adapter_failure_soft_witness :
    (getLLM agAll "openai" "gpt-4-turbo").isSome = true ∧
    (false || shouldSearchWeb "latest news today") = true ∧
    dispatchLookup agAll.searchCache (lowerStr "latest news today" ++ "-" ++ "openai")
      envOk2.now searchCacheTTL = none ∧
    (("openai" == "google" && agAll.googleKey) = false ∧ agAll.perplexityKey = true ∧
      ∃ m, (perplexityToolCall agAll.perplexityCache envOk2 "latest news today").result =
        Except.error m) ∧
    (streamGenerate agAll envOk2 "latest news today").escaped = none ∧
    ((searchStage agAll envOk2 "latest news today" "openai" true).isSearchSuccessful = false ∧
     (∃ a, (searchStage agAll envOk2 "latest news today" "openai" true).selected = some a ∧
       (searchStage agAll envOk2 "latest news today" "openai" true).searchToolUsed =
         a ++ "_failed") ∧
     (∃ m, ((googleToolCall agAll.googleCache envOk2 "latest news today").result =
          Except.error m ∨
        (perplexityToolCall agAll.perplexityCache envOk2 "latest news today").result =
          Except.error m) ∧
       sIncludes (searchStage agAll envOk2 "latest news today" "openai" true).searchContent m
         = true) ∧
     (processMessage agAll envOk2 "latest news today" "openai" "gpt-4-turbo" false).events.filter
       Event.isError = [] ∧
     (processMessage agAll envOk2 "latest news today" "openai" "gpt-4-turbo"
       false).events.getLast? = some Event.endEvent) :=
  ⟨by decide, by decide, by decide,
   ⟨by decide, by decide, ⟨"Failed to perform Perplexity search: perplexity down", rfl⟩⟩,
   by decide,
   C7_adapter_failure_soft agAll envOk2 "latest news today" "openai" "gpt-4-turbo" false
     (by decide) (by decide) (by decide)
     (Or.inr ⟨by decide, by decide,
       ⟨"Failed to perform Perplexity search: perplexity down", rfl⟩⟩)
     (by decide)⟩

/-- C8: on a dispatcher-cache miss, provider `"google"` with the
grounding tool configured always selects the grounding adapter (also
when the Perplexity adapter is configured), and the Perplexity adapter is
selected only when the grounding adapter is not applicable (other
provider or grounding tool not configured) and Perplexity is
configured. -/
theorem C8_grounding_preferred (ag : Agent) (env : Env) (q provider : String)
    (hmiss : dispatchLookup ag.searchCache (lowerStr q ++ "-" ++ provider) env.now
      searchCacheTTL = none) :
    ((provider == "google" && ag.googleKey) = true →
      (searchStage ag env q provider true).selected = some "google_search_grounding") ∧
    ((searchStage ag env q provider true).selected = some "perplexity_web_search" →
      (provider == "google" && ag.googleKey) = false ∧ ag.perplexityKey = true) := by
  unfold searchStage
  rw [if_pos rfl]
  dsimp only
  rw [hmiss]
  dsimp only
  constructor
  · intro h
    simp only [h, if_true]
    cases (googleToolCall ag.googleCache env q).result <;> rfl
  · intro h
    cases hgb : provider == "google" && ag.googleKey with
    | true =>
      simp only [hgb, if_true] at h
      cases hres : (googleToolCall ag.googleCache env q).result <;>
        · simp only [hres] at h
          exact absurd h (by decide)
    | false =>
      refine ⟨rfl, ?_⟩
      simp only [hgb] at h
      rw [if_neg (by simp)] at h
      cases hpk : ag.perplexityKey with
      | true => rfl
      | false =>
        simp only [hpk] at h
        rw [if_neg (by simp)] at h
        simp at h

/-- Witness for C8: with both adapters configured and provider
`"google"`, the grounding adapter is selected. -/
theorem C8_grounding_preferred_witness :
    dispatchLookup agAll.searchCache (lowerStr "latest news today" ++ "-" ++ "google")
      envOk.now searchCacheTTL = none ∧
    ((("google" == "google" && agAll.googleKey) = true →
      (searchStage agAll envOk "latest news today" "google" true).selected =
        some "google_search_grounding") ∧
     ((searchStage agAll envOk "latest news today" "google" true).selected =
        some "perplexity_web_search" →
      ("google" == "google" && agAll.googleKey) = false ∧ agAll.perplexityKey = true)) :=
  ⟨by decide,
    C8_grounding_preferred agAll envOk "latest news today" "google" (by decide)⟩

/-- On a dispatcher-cache miss, whenever an adapter branch applies, its
`_call` is invoked exactly once. -/
theorem searchStage_live_adapter_call (ag : Agent) (env : Env) (q provider : String)
    (hmiss : dispatchLookup ag.searchCache (lowerStr q ++ "-" ++ provider) env.now
      searchCacheTTL = none)
    (hsel : (provider == "google" && ag.googleKey) = true ∨
            ((provider == "google" && ag.googleKey) = false ∧ ag.perplexityKey = true)) :
    (searchStage ag env q provider true).adapterCalls = 1 := by
  unfold searchStage
  rw [if_pos rfl]
  dsimp only
  rw [hmiss]
  dsimp only
  rcases hsel with h | ⟨h, hp⟩
  · simp only [h, if_true]
    cases (googleToolCall ag.googleCache env q).result <;> rfl
  · simp only [h]
    rw [if_neg (by simp)]
    simp only [hp, if_true]
    cases (perplexityToolCall ag.perplexityCache env q).result <;> rfl

/-- C10: on a live dispatch (no entry for the key), the dispatcher cache
is written exactly when `isSearchSuccessful` is true — failed adapter
calls and the no-adapter placeholder leave it unchanged — so a subsequent
identical dispatch after a failure invokes the adapter again. -/
theorem C10_cache_write_iff_success (ag : Agent) (env env2 : Env) (q provider : String)
    (hraw : cacheFind ag.searchCache (lowerStr q ++ "-" ++ provider) = none) :
    ((searchStage ag env q provider true).isSearchSuccessful = false →
      (searchStage ag env q provider true).agent.searchCache = ag.searchCache) ∧
    ((searchStage ag env q provider true).isSearchSuccessful = true →
      (searchStage ag env q provider true).agent.searchCache =
        cacheInsert ag.searchCache (lowerStr q ++ "-" ++ provider)
          ⟨⟨(searchStage ag env q provider true).searchContent,
            (searchStage ag env q provider true).searchSources,
            (searchStage ag env q provider true).searchToolUsed⟩, env.now⟩) ∧
    ((((provider == "google" && ag.googleKey) = true ∧
        ∃ m, (googleToolCall ag.googleCache env q).result = Except.error m) ∨
      ((provider == "google" && ag.googleKey) = false ∧ ag.perplexityKey = true ∧
        ∃ m, (perplexityToolCall ag.perplexityCache env q).result = Except.error m)) →
      (searchStage (searchStage ag env q provider true).agent env2 q provider
        true).adapterCalls = 1) := by
  have hmiss := dispatchLookup_of_find_none ag.searchCache
    (lowerStr q ++ "-" ++ provider) env.now searchCacheTTL hraw
  refine ⟨?_, ?_, ?_⟩
  · intro hsf
    unfold searchStage at hsf ⊢
    rw [if_pos rfl] at hsf ⊢
    dsimp only at hsf ⊢
    rw [hmiss] at hsf ⊢
    dsimp only at hsf ⊢
    cases hgb : provider == "google" && ag.googleKey with
    | true =>
      simp only [hgb, if_true] at hsf ⊢
      cases hres : (googleToolCall ag.googleCache env q).result with
      | ok c =>
        simp only [hres] at hsf
        exact absurd hsf (by decide)
      | error m =>
        simp only [hres]
    | false =>
      simp only [hgb] at hsf ⊢
      rw [if_neg (by simp)] at hsf ⊢
      cases hpk : ag.perplexityKey with
      | true =>
        simp only [hpk, if_true] at hsf ⊢
        cases hres : (perplexityToolCall ag.perplexityCache env q).result with
        | ok c =>
          simp only [hres] at hsf
          exact absurd hsf (by decide)
        | error m =>
          simp only [hres]
      | false =>
        simp only [hpk] at hsf ⊢
        rw [if_neg (by simp)] at hsf ⊢
  · intro hsucc
    exact searchStage_success_write ag env q provider hmiss hsucc
  · intro hfail
    obtain ⟨-, -, -, hcache, hgkey, hpkey⟩ :=
      searchStage_adapter_failure ag env q provider hmiss hfail
    apply searchStage_live_adapter_call
    · rw [hcache]
      exact dispatchLookup_of_find_none _ _ _ _ hraw
    · rcases hfail with ⟨h, -⟩ | ⟨h, hp, -⟩
      · left
        rw [hgkey]
        exact h
      · right
        rw [hgkey, hpkey]
        exact ⟨h, hp⟩

/-- Witness for C10: a failed Perplexity dispatch on an empty cache
leaves it empty and the next identical dispatch calls the adapter
again. -/
theorem C10_cache_write_iff_success_witness :
    cacheFind agAll.searchCache (lowerStr "latest news today" ++ "-" ++ "openai") = none ∧
    (((searchStage agAll envOk2 "latest news today" "openai" true).isSearchSuccessful = false →
      (searchStage agAll envOk2 "latest news today" "openai" true).agent.searchCache =
        agAll.searchCache) ∧
     ((searchStage agAll envOk2 "latest news today" "openai" true).isSearchSuccessful = true →
      (searchStage agAll envOk2 "latest news today" "openai" true).agent.searchCache =
        cacheInsert agAll.searchCache (lowerStr "latest news today" ++ "-" ++ "openai")
          ⟨⟨(searchStage agAll envOk2 "latest news today" "openai" true).searchContent,
            (searchStage agAll envOk2 "latest news today" "openai" true).searchSources,
            (searchStage agAll envOk2 "latest news today" "openai" true).searchToolUsed⟩,
           envOk2.now⟩) ∧
     (((("openai" == "google" && agAll.googleKey) = true ∧
         ∃ m, (googleToolCall agAll.googleCache envOk2 "latest news today").result =
           Except.error m) ∨
       (("openai" == "google" && agAll.googleKey) = false ∧ agAll.perplexityKey = true ∧
         ∃ m, (perplexityToolCall agAll.perplexityCache envOk2 "latest news today").result =
           Except.error m)) →
      (searchStage (searchStage agAll envOk2 "latest news today" "openai" true).agent envOk
        "latest news today" "openai" true).adapterCalls = 1)) :=
  ⟨rfl, C10_cache_write_iff_success agAll envOk2 envOk "latest news today" "openai" rfl⟩

end WebSearch
